import Mathlib

/-!
# Course API (`api/main.go`): the handlers over the in-memory course slice

The package keeps one global slice `courses` and six HTTP handlers registered
on a router.  Each handler is embedded as a function of the current value of
`courses` and of the parts of the request it reads (the `{id}` path variable
and the body); it returns what was written to the response writer together
with the value of `courses` when the handler returns.

Two library calls are not part of the repository:

* `json.NewDecoder(r.Body).Decode(&c)` is the parameter `decode`: `none` is a
  non-nil `err`, `some c` is a nil `err` with `c` filled in;
* `json.NewEncoder(w).Encode(v)` is recorded as the value `v` that was encoded.

`*author` is an `Option author` (a nil pointer is `none`), `float64` is
`Float`, and a request whose `Body` field is nil has body `none`.
-/

namespace CourseAPI

/-- Author model (`type author struct`). -/
structure author where
  AuthorID : Int
  Name : String

/-- Course model (`type course struct`). -/
structure course where
  CourseID : String
  Title : String
  Author : Option author
  Price : Float

/-- The value handed to `w.Write` or to `json.NewEncoder(w).Encode`. -/
inductive Payload where
  /-- Plain bytes: `w.Write([]byte(s))`. -/
  | text (s : String)
  /-- The slice itself: `Encode(courses)`. -/
  | courseList (cs : List course)
  /-- One course: `Encode(item)`. -/
  | courseObj (c : course)
  /-- A one-entry string map: `Encode(map[string]string{key: value})`. -/
  | strMap (key value : String)

/-- What a handler leaves in the response writer: the `Content-Type` header if
it was set, the status code (200 unless `WriteHeader` was called) and the body. -/
structure Response where
  contentType : Option String
  status : Nat
  body : Payload

/-- The constant `http.StatusOK`, also the status of a response on which
`WriteHeader` was never called. -/
def StatusOK : Nat := 200

/-- The constant `http.StatusCreated`. -/
def StatusCreated : Nat := 201

/-- The constant `http.StatusBadRequest`. -/
def StatusBadRequest : Nat := 400

/-- The constant `http.StatusNotFound`. -/
def StatusNotFound : Nat := 404

/-- A response of a handler that has run
`w.Header().Set("Content-Type", "application/json")`. -/
def jsonResponse (status : Nat) (body : Payload) : Response :=
  ⟨some "application/json", status, body⟩

/-- Helper function to check if course is empty. -/
def isEmpty (c : course) : Bool :=
  c.CourseID == "" || c.Title == ""

/-- The value of `courses` once `main` has appended its seed data to the
initially nil slice. -/
def seedCourses : List course :=
  (([] : List course) ++
    [{ CourseID := "1", Title := "First Course",
       Author := some { AuthorID := 1, Name := "John Doe" }, Price := 10.00 }]) ++
    [{ CourseID := "2", Title := "Second Course",
       Author := some { AuthorID := 2, Name := "Jane Smith" }, Price := 20.00 }]

/-- Home route. -/
def serveHome (courses : List course) : Response × List course :=
  (⟨none, StatusOK, .text "📚 Welcome to the Course API"⟩, courses)

/-- GET all courses. -/
def getAllCourses (courses : List course) : Response × List course :=
  (jsonResponse StatusOK (.courseList courses), courses)

/-- The loop `for _, item := range courses` of `getOneCourse`: the item at
which the loop body returns, if it does. -/
def getOneCourse.scan (id : String) : List course → Option course
  | [] => none
  | item :: rest =>
    if item.CourseID = id then some item else getOneCourse.scan id rest

/-- GET one course by ID. -/
def getOneCourse (courses : List course) (id : String) : Response × List course :=
  match getOneCourse.scan id courses with
  | some item => (jsonResponse StatusOK (.courseObj item), courses)
  | none => (jsonResponse StatusNotFound (.strMap "error" "Course not found"), courses)

/-- POST create a new course. -/
def createCourse (decode : String → Option course) (courses : List course)
    (body : Option String) : Response × List course :=
  match body with
  | none => (jsonResponse StatusBadRequest (.strMap "error" "Request body is empty"), courses)
  | some b =>
    match decode b with
    | none => (jsonResponse StatusBadRequest (.strMap "error" "Invalid JSON"), courses)
    | some c =>
      if isEmpty c then
        (jsonResponse StatusBadRequest (.strMap "error" "Missing course ID or title"), courses)
      else
        (jsonResponse StatusCreated (.courseObj c), courses ++ [c])

/-- The loop header `for i, item := range courses` with the test
`item.CourseID == id` shared by `updateCourse` and `deleteCourse`: the index
`i` at which the loop body is entered (it always returns), counted from `i`. -/
def rangeMatch (id : String) : List course → Nat → Option Nat
  | [], _ => none
  | item :: rest, i =>
    if item.CourseID = id then some i else rangeMatch id rest (i + 1)

/-- PUT update a course by ID.  The handler does not test `r.Body` for nil:
with a nil body `Decode` reads from a nil reader and the handler panics, so
no response is written (`none`) and `courses` is untouched. -/
def updateCourse (decode : String → Option course) (courses : List course)
    (id : String) (body : Option String) : Option Response × List course :=
  match rangeMatch id courses 0 with
  | some i =>
    match body with
    | none => (none, courses)
    | some b =>
      match decode b with
      | none =>
        (some (jsonResponse StatusBadRequest (.strMap "error" "Invalid JSON")), courses)
      | some updated =>
        if isEmpty updated then
          (some (jsonResponse StatusBadRequest (.strMap "error" "Missing fields in course")),
            courses)
        else
          (some (jsonResponse StatusOK (.courseObj updated)), courses.set i updated)
  | none =>
    (some (jsonResponse StatusNotFound (.strMap "error" "Course not found")), courses)

/-- DELETE a course by ID. -/
def deleteCourse (courses : List course) (id : String) : Response × List course :=
  match rangeMatch id courses 0 with
  | some i =>
    (jsonResponse StatusOK (.strMap "message" "Course deleted successfully"),
      courses.take i ++ courses.drop (i + 1))
  | none => (jsonResponse StatusNotFound (.strMap "error" "Course not found"), courses)

/-- A request as the router of `main` dispatches it: one constructor per
registered route, carrying the path variable and the body the handler reads. -/
inductive Request where
  | home
  | create (body : Option String)
  | getall
  | getone (id : String)
  | update (id : String) (body : Option String)
  | delete (id : String)

/-- Dispatch of one request to its handler (the `r.HandleFunc` table). -/
def serve (decode : String → Option course) (courses : List course) :
    Request → Option Response × List course
  | .home => ((serveHome courses).1, (serveHome courses).2)
  | .create body => ((createCourse decode courses body).1, (createCourse decode courses body).2)
  | .getall => ((getAllCourses courses).1, (getAllCourses courses).2)
  | .getone id => ((getOneCourse courses id).1, (getOneCourse courses id).2)
  | .update id body => updateCourse decode courses id body
  | .delete id => ((deleteCourse courses id).1, (deleteCourse courses id).2)

/-- The value of `courses` after a sequence of requests served one after the
other. -/
def serveAll (decode : String → Option course) (courses : List course) :
    List Request → List course
  | [] => courses
  | req :: rest => serveAll decode (serve decode courses req).2 rest

/-- What `encoding/json` makes of the request bodies used as examples below;
every other body is treated as undecodable.  Absent fields keep their zero
value. -/
def sampleDecode (b : String) : Option course :=
  if b = "\x7b\"course_id\":\"1\",\"title\":\"Updated\",\"price\":99.0\x7d" then
    some { CourseID := "1", Title := "Updated", Author := none, Price := 99.0 }
  else if b = "\x7b\"course_id\":\"\",\"title\":\"X\"\x7d" then
    some { CourseID := "", Title := "X", Author := none, Price := 0 }
  else if b = "\x7b\"course_id\":\"X\",\"title\":\"\"\x7d" then
    some { CourseID := "X", Title := "", Author := none, Price := 0 }
  else if b = "\x7b\"course_id\":\"3\",\"title\":\"Third Course\",\"price\":30.0\x7d" then
    some { CourseID := "3", Title := "Third Course", Author := none, Price := 30.0 }
  else if b = "\x7b\"course_id\":\"1\",\"title\":\"Shadow\",\"price\":5.0\x7d" then
    some { CourseID := "1", Title := "Shadow", Author := none, Price := 5.0 }
  else none

/-- The list `courses` splits as `pre ++ item :: post` at its first entry whose
identifier is `id`: `item` has that identifier and no entry of `pre` has it, so
`pre.length` is the index of the first match. -/
def FirstMatch (id : String) (courses pre : List course) (item : course)
    (post : List course) : Prop :=
  courses = pre ++ item :: post ∧ item.CourseID = id ∧ ∀ x ∈ pre, x.CourseID ≠ id

/-! ## The two loops -/

theorem isEmpty_eq_true_iff (c : course) :
    isEmpty c = true ↔ (c.CourseID = "" ∨ c.Title = "") := by
  simp [isEmpty]

theorem isEmpty_eq_false (c : course) (hid : c.CourseID ≠ "") (ht : c.Title ≠ "") :
    isEmpty c = false := by
  simp [isEmpty, hid, ht]

theorem exists_firstMatch {id : String} {courses : List course}
    (h : ∃ x ∈ courses, x.CourseID = id) :
    ∃ pre item post, FirstMatch id courses pre item post := by
  induction courses with
  | nil => simp at h
  | cons a l ih =>
    by_cases ha : a.CourseID = id
    · exact ⟨[], a, l, rfl, ha, by simp⟩
    · obtain ⟨x, hx, hxid⟩ := h
      rcases List.mem_cons.mp hx with rfl | hxl
      · exact absurd hxid ha
      · obtain ⟨pre, item, post, hsplit, hitem, hpre⟩ := ih ⟨x, hxl, hxid⟩
        refine ⟨a :: pre, item, post, by simp [hsplit], hitem, ?_⟩
        intro y hy
        rcases List.mem_cons.mp hy with rfl | hyl
        · exact ha
        · exact hpre y hyl

theorem scan_split (id : String) (pre : List course) (item : course) (post : List course)
    (hitem : item.CourseID = id) (hpre : ∀ x ∈ pre, x.CourseID ≠ id) :
    getOneCourse.scan id (pre ++ item :: post) = some item := by
  induction pre with
  | nil => simp [getOneCourse.scan, hitem]
  | cons a l ih =>
    have ha : a.CourseID ≠ id := hpre a (List.mem_cons_self a l)
    have hl : ∀ x ∈ l, x.CourseID ≠ id := fun x hx => hpre x (List.mem_cons_of_mem a hx)
    simp [getOneCourse.scan, ha, ih hl]

theorem scan_eq_none_iff (id : String) (courses : List course) :
    getOneCourse.scan id courses = none ↔ ∀ x ∈ courses, x.CourseID ≠ id := by
  induction courses with
  | nil => simp [getOneCourse.scan]
  | cons a l ih =>
    by_cases ha : a.CourseID = id
    · simp [getOneCourse.scan, ha]
    · simp [getOneCourse.scan, ha, ih]

theorem rangeMatch_split (id : String) (pre : List course) (item : course)
    (post : List course) (k : Nat)
    (hitem : item.CourseID = id) (hpre : ∀ x ∈ pre, x.CourseID ≠ id) :
    rangeMatch id (pre ++ item :: post) k = some (k + pre.length) := by
  induction pre generalizing k with
  | nil => simp [rangeMatch, hitem]
  | cons a l ih =>
    have ha : a.CourseID ≠ id := hpre a (List.mem_cons_self a l)
    have hl : ∀ x ∈ l, x.CourseID ≠ id := fun x hx => hpre x (List.mem_cons_of_mem a hx)
    simp [rangeMatch, ha, ih (k + 1) hl]
    omega

theorem rangeMatch_eq_none_iff (id : String) (courses : List course) (k : Nat) :
    rangeMatch id courses k = none ↔ ∀ x ∈ courses, x.CourseID ≠ id := by
  induction courses generalizing k with
  | nil => simp [rangeMatch]
  | cons a l ih =>
    by_cases ha : a.CourseID = id
    · simp [rangeMatch, ha]
    · simp [rangeMatch, ha, ih (k + 1)]

theorem set_split (pre : List course) (item p : course) (post : List course) :
    (pre ++ item :: post).set pre.length p = pre ++ p :: post := by
  induction pre with
  | nil => simp
  | cons a l ih => simp [ih]

theorem take_drop_split (pre : List course) (item : course) (post : List course) :
    (pre ++ item :: post).take pre.length ++ (pre ++ item :: post).drop (pre.length + 1)
      = pre ++ post := by
  induction pre with
  | nil => simp
  | cons a l ih => simp

/-! ## Handlers on a collection split at the first match -/

theorem createCourse_valid (decode : String → Option course) (courses : List course)
    (b : String) (c : course) (hdec : decode b = some c)
    (hid : c.CourseID ≠ "") (ht : c.Title ≠ "") :
    createCourse decode courses (some b)
      = (jsonResponse 201 (.courseObj c), courses ++ [c]) := by
  simp [createCourse, hdec, isEmpty_eq_false c hid ht, StatusCreated]

theorem getOneCourse_split (id : String) (pre : List course) (item : course)
    (post : List course) (hitem : item.CourseID = id) (hpre : ∀ x ∈ pre, x.CourseID ≠ id) :
    getOneCourse (pre ++ item :: post) id
      = (jsonResponse 200 (.courseObj item), pre ++ item :: post) := by
  simp [getOneCourse, scan_split id pre item post hitem hpre, StatusOK]

theorem updateCourse_split (decode : String → Option course) (id : String)
    (pre : List course) (item : course) (post : List course) (b : String) (p : course)
    (hitem : item.CourseID = id) (hpre : ∀ x ∈ pre, x.CourseID ≠ id)
    (hdec : decode b = some p) (hid : p.CourseID ≠ "") (ht : p.Title ≠ "") :
    updateCourse decode (pre ++ item :: post) id (some b)
      = (some (jsonResponse 200 (.courseObj p)), pre ++ p :: post) := by
  simp [updateCourse, rangeMatch_split id pre item post 0 hitem hpre, hdec,
    isEmpty_eq_false p hid ht, set_split, StatusOK]

theorem deleteCourse_split (id : String) (pre : List course) (item : course)
    (post : List course) (hitem : item.CourseID = id) (hpre : ∀ x ∈ pre, x.CourseID ≠ id) :
    deleteCourse (pre ++ item :: post) id
      = (jsonResponse 200 (.strMap "message" "Course deleted successfully"), pre ++ post) := by
  have h := take_drop_split pre item post
  simp only [deleteCourse, rangeMatch_split id pre item post 0 hitem hpre, Nat.zero_add,
    StatusOK, h]

/-! ## Create followed by GetByID (C1) -/

/-- C1, as stated, fails: on the seeded collection, creating the valid course
with identifier "1" and title "Shadow" succeeds with 201, yet the following
GetByID("1") does not return that course; it returns the seeded first course,
which comes earlier in the collection. -/
theorem create_then_get_shadowed :
    (createCourse sampleDecode seedCourses
        (some "\x7b\"course_id\":\"1\",\"title\":\"Shadow\",\"price\":5.0\x7d")).1
      = jsonResponse 201 (.courseObj ⟨"1", "Shadow", none, 5.0⟩) ∧
    (getOneCourse (createCourse sampleDecode seedCourses
        (some "\x7b\"course_id\":\"1\",\"title\":\"Shadow\",\"price\":5.0\x7d")).2 "1").1
      ≠ jsonResponse 200 (.courseObj ⟨"1", "Shadow", none, 5.0⟩) ∧
    (getOneCourse (createCourse sampleDecode seedCourses
        (some "\x7b\"course_id\":\"1\",\"title\":\"Shadow\",\"price\":5.0\x7d")).2 "1").1
      = jsonResponse 200 (.courseObj ⟨"1", "First Course", some ⟨1, "John Doe"⟩, 10.00⟩) := by
  refine ⟨rfl, ?_, rfl⟩
  intro h
  have h2 : (getOneCourse (createCourse sampleDecode seedCourses
        (some "\x7b\"course_id\":\"1\",\"title\":\"Shadow\",\"price\":5.0\x7d")).2 "1").1
      = jsonResponse 200 (.courseObj ⟨"1", "First Course", some ⟨1, "John Doe"⟩, 10.00⟩) := rfl
  rw [h2] at h
  have h3 := congrArg (fun r => match r.body with
    | .courseObj c => c.Title
    | _ => "") h
  exact absurd h3 (by decide)

/-- C1 (amended): for every collection and every body that parses to a course
`c` with non-empty identifier and title, Create answers 201 with `c`, and the
GetByID(c.id) that follows returns `c` when no entry of the collection before
the Create has identifier `c.id`; when some entry has it, GetByID returns the
first such entry of the collection before the Create. -/
theorem create_then_get (decode : String → Option course) (courses : List course)
    (b : String) (c : course) (hdec : decode b = some c)
    (hid : c.CourseID ≠ "") (ht : c.Title ≠ "") :
    (createCourse decode courses (some b)).1 = jsonResponse 201 (.courseObj c) ∧
    ((∀ x ∈ courses, x.CourseID ≠ c.CourseID) →
      (getOneCourse (createCourse decode courses (some b)).2 c.CourseID).1
        = jsonResponse 200 (.courseObj c)) ∧
    (∀ pre item post, FirstMatch c.CourseID courses pre item post →
      (getOneCourse (createCourse decode courses (some b)).2 c.CourseID).1
        = jsonResponse 200 (.courseObj item)) := by
  rw [createCourse_valid decode courses b c hdec hid ht]
  refine ⟨rfl, ?_, ?_⟩
  · intro hfresh
    have h := getOneCourse_split c.CourseID courses c [] rfl hfresh
    simp only [h]
  · rintro pre item post ⟨hsplit, hitem, hpre⟩
    subst hsplit
    have h := getOneCourse_split c.CourseID pre item (post ++ [c]) hitem hpre
    simp only [List.append_assoc, List.cons_append, h]

/-- Witness of C1 (amended): creating the course "3" on the seeded collection
and reading "3" back. -/
theorem create_then_get_witness :
    (getOneCourse (createCourse sampleDecode seedCourses
        (some "\x7b\"course_id\":\"3\",\"title\":\"Third Course\",\"price\":30.0\x7d")).2 "3").1
      = jsonResponse 200 (.courseObj ⟨"3", "Third Course", none, 30.0⟩) :=
  (create_then_get sampleDecode seedCourses
    "\x7b\"course_id\":\"3\",\"title\":\"Third Course\",\"price\":30.0\x7d"
    ⟨"3", "Third Course", none, 30.0⟩ rfl (by decide) (by decide)).2.1
    (by decide)

/-! ## Update in place (C2) -/

/-- C2: when some entry of the collection has identifier `id` and the body
parses to a course `p` with non-empty identifier and title, Update(id, p)
answers 200 with `p`; the collection splits at its first entry matching `id`
as `pre ++ item :: post` and becomes `pre ++ p :: post`: same length, `p` at
the index `pre.length` of the first match, every other index unchanged. -/
theorem updateCourse_in_place (decode : String → Option course) (courses : List course)
    (id b : String) (p : course) (hex : ∃ x ∈ courses, x.CourseID = id)
    (hdec : decode b = some p) (hid : p.CourseID ≠ "") (ht : p.Title ≠ "") :
    ∃ pre item post, FirstMatch id courses pre item post ∧
      (updateCourse decode courses id (some b)).1 = some (jsonResponse 200 (.courseObj p)) ∧
      (updateCourse decode courses id (some b)).2 = pre ++ p :: post ∧
      (updateCourse decode courses id (some b)).2.length = courses.length ∧
      (updateCourse decode courses id (some b)).2[pre.length]? = some p ∧
      ∀ j, j ≠ pre.length →
        (updateCourse decode courses id (some b)).2[j]? = courses[j]? := by
  obtain ⟨pre, item, post, hsplit, hitem, hpre⟩ := exists_firstMatch hex
  refine ⟨pre, item, post, ⟨hsplit, hitem, hpre⟩, ?_⟩
  subst hsplit
  rw [updateCourse_split decode id pre item post b p hitem hpre hdec hid ht]
  refine ⟨rfl, rfl, by simp, ?_, ?_⟩
  · rw [List.getElem?_append_right (Nat.le_refl _)]
    simp
  intro j hj
  rcases Nat.lt_or_gt_of_ne hj with hlt | hgt
  · simp [List.getElem?_append_left hlt]
  · have hle : pre.length ≤ j := Nat.le_of_lt hgt
    rw [List.getElem?_append_right hle, List.getElem?_append_right hle]
    obtain ⟨d, hd⟩ : ∃ d, j - pre.length = d + 1 := ⟨j - pre.length - 1, by omega⟩
    simp [hd]

/-- Witness of C2: Update("1", Updated) on the seeded collection keeps the
second seeded course at index 1. -/
theorem updateCourse_in_place_witness :
    ∃ pre item post, FirstMatch "1" seedCourses pre item post ∧
      (updateCourse sampleDecode seedCourses "1"
        (some "\x7b\"course_id\":\"1\",\"title\":\"Updated\",\"price\":99.0\x7d")).1
        = some (jsonResponse 200 (.courseObj ⟨"1", "Updated", none, 99.0⟩)) ∧
      (updateCourse sampleDecode seedCourses "1"
        (some "\x7b\"course_id\":\"1\",\"title\":\"Updated\",\"price\":99.0\x7d")).2
        = pre ++ ⟨"1", "Updated", none, 99.0⟩ :: post := by
  obtain ⟨pre, item, post, h, h1, h2, _⟩ := updateCourse_in_place sampleDecode seedCourses "1"
    "\x7b\"course_id\":\"1\",\"title\":\"Updated\",\"price\":99.0\x7d"
    ⟨"1", "Updated", none, 99.0⟩ ⟨⟨"1", "First Course", some ⟨1, "John Doe"⟩, 10.00⟩,
      by simp [seedCourses], rfl⟩ rfl (by decide) (by decide)
  exact ⟨pre, item, post, h, h1, h2⟩

/-! ## Delete (C3) -/

/-- C3: when some entry of the collection has identifier `id`, Delete(id)
answers 200 with the success message; the collection splits at its first entry
matching `id` as `pre ++ item :: post` and becomes `pre ++ post`, one entry
shorter, with `post` (later duplicates of `id` included) kept as it was. -/
theorem deleteCourse_removes_first (courses : List course) (id : String)
    (hex : ∃ x ∈ courses, x.CourseID = id) :
    ∃ pre item post, FirstMatch id courses pre item post ∧
      (deleteCourse courses id).1
        = jsonResponse 200 (.strMap "message" "Course deleted successfully") ∧
      (deleteCourse courses id).2 = pre ++ post ∧
      (deleteCourse courses id).2.length + 1 = courses.length := by
  obtain ⟨pre, item, post, hsplit, hitem, hpre⟩ := exists_firstMatch hex
  refine ⟨pre, item, post, ⟨hsplit, hitem, hpre⟩, ?_⟩
  subst hsplit
  rw [deleteCourse_split id pre item post hitem hpre]
  refine ⟨rfl, rfl, ?_⟩
  simp only [List.length_append, List.length_cons]
  omega

/-- Witness of C3: Delete("1") on the seeded collection. -/
theorem deleteCourse_removes_first_witness :
    ∃ pre item post, FirstMatch "1" seedCourses pre item post ∧
      (deleteCourse seedCourses "1").1
        = jsonResponse 200 (.strMap "message" "Course deleted successfully") ∧
      (deleteCourse seedCourses "1").2 = pre ++ post ∧
      (deleteCourse seedCourses "1").2.length + 1 = seedCourses.length :=
  deleteCourse_removes_first seedCourses "1"
    ⟨⟨"1", "First Course", some ⟨1, "John Doe"⟩, 10.00⟩, by simp [seedCourses], rfl⟩

/-! ## GetByID (C4) -/

/-- C4: GetByID(id) answers 200 with the first entry, in collection order,
whose identifier is `id` (such a first entry exists as soon as some entry has
the identifier), and it answers 404 with error "Course not found" exactly when
no entry of the collection has that identifier. -/
theorem getOneCourse_first_or_not_found (courses : List course) (id : String) :
    (∀ pre item post, FirstMatch id courses pre item post →
      (getOneCourse courses id).1 = jsonResponse 200 (.courseObj item)) ∧
    ((∃ x ∈ courses, x.CourseID = id) →
      ∃ pre item post, FirstMatch id courses pre item post) ∧
    ((getOneCourse courses id).1 = jsonResponse 404 (.strMap "error" "Course not found")
      ↔ ∀ x ∈ courses, x.CourseID ≠ id) ∧
    ((getOneCourse courses id).1.status = 404 ↔ ∀ x ∈ courses, x.CourseID ≠ id) := by
  refine ⟨?_, exists_firstMatch, ?_, ?_⟩
  · rintro pre item post ⟨hsplit, hitem, hpre⟩
    subst hsplit
    rw [getOneCourse_split id pre item post hitem hpre]
  · rw [← scan_eq_none_iff]
    cases hscan : getOneCourse.scan id courses with
    | none => simp [getOneCourse, hscan, StatusNotFound]
    | some item => simp [getOneCourse, hscan, StatusOK, jsonResponse]
  · rw [← scan_eq_none_iff]
    cases hscan : getOneCourse.scan id courses with
    | none => simp [getOneCourse, hscan, StatusNotFound, jsonResponse]
    | some item => simp [getOneCourse, hscan, StatusOK, jsonResponse]

/-- Witness of C4: GetByID("2") on the seeded collection returns the second
seeded course, which is the first entry with identifier "2". -/
theorem getOneCourse_first_or_not_found_witness :
    (getOneCourse seedCourses "2").1
      = jsonResponse 200 (.courseObj ⟨"2", "Second Course", some ⟨2, "Jane Smith"⟩, 20.00⟩) :=
  (getOneCourse_first_or_not_found seedCourses "2").1
    [⟨"1", "First Course", some ⟨1, "John Doe"⟩, 10.00⟩]
    ⟨"2", "Second Course", some ⟨2, "Jane Smith"⟩, 20.00⟩ []
    ⟨rfl, rfl, by decide⟩

/-! ## Create appends (C5) -/

/-- C5: for every collection and every body that parses to a course `c` with
non-empty identifier and title, Create answers 201 with `c` and the collection
becomes the old one with `c` appended: one entry longer, every old index
unchanged, `c` last.  Nothing is assumed about identifiers already stored. -/
theorem createCourse_appends (decode : String → Option course) (courses : List course)
    (b : String) (c : course) (hdec : decode b = some c)
    (hid : c.CourseID ≠ "") (ht : c.Title ≠ "") :
    (createCourse decode courses (some b)).1 = jsonResponse 201 (.courseObj c) ∧
    (createCourse decode courses (some b)).2 = courses ++ [c] ∧
    (createCourse decode courses (some b)).2.length = courses.length + 1 ∧
    (∀ j, j < courses.length →
      (createCourse decode courses (some b)).2[j]? = courses[j]?) ∧
    (createCourse decode courses (some b)).2[courses.length]? = some c := by
  rw [createCourse_valid decode courses b c hdec hid ht]
  refine ⟨rfl, rfl, by simp, ?_, by simp⟩
  intro j hj
  simp [List.getElem?_append_left hj]

/-- Witness of C5: creating a second course with identifier "1" on the seeded
collection appends it after the two seeded courses. -/
theorem createCourse_appends_witness :
    (createCourse sampleDecode seedCourses
        (some "\x7b\"course_id\":\"1\",\"title\":\"Shadow\",\"price\":5.0\x7d")).2
      = seedCourses ++ [⟨"1", "Shadow", none, 5.0⟩] :=
  (createCourse_appends sampleDecode seedCourses
    "\x7b\"course_id\":\"1\",\"title\":\"Shadow\",\"price\":5.0\x7d"
    ⟨"1", "Shadow", none, 5.0⟩ rfl (by decide) (by decide)).2.1

/-! ## Validation on create (C6) -/

/-- C6: for every collection and every body that parses to a course whose
identifier is empty or whose title is empty, Create answers 400 with error
"Missing course ID or title". -/
theorem createCourse_missing_fields (decode : String → Option course)
    (courses : List course) (b : String) (c : course) (hdec : decode b = some c)
    (hempty : c.CourseID = "" ∨ c.Title = "") :
    (createCourse decode courses (some b)).1
      = jsonResponse 400 (.strMap "error" "Missing course ID or title") ∧
    (createCourse decode courses (some b)).1.status = 400 := by
  have h : isEmpty c = true := (isEmpty_eq_true_iff c).mpr hempty
  simp [createCourse, hdec, h, StatusBadRequest, jsonResponse]

/-- Witness of C6: the two bodies with an empty identifier and with an empty
title, sent to the seeded collection. -/
theorem createCourse_missing_fields_witness :
    (createCourse sampleDecode seedCourses
        (some "\x7b\"course_id\":\"\",\"title\":\"X\"\x7d")).1
      = jsonResponse 400 (.strMap "error" "Missing course ID or title") ∧
    (createCourse sampleDecode seedCourses
        (some "\x7b\"course_id\":\"X\",\"title\":\"\"\x7d")).1
      = jsonResponse 400 (.strMap "error" "Missing course ID or title") :=
  ⟨(createCourse_missing_fields sampleDecode seedCourses
      "\x7b\"course_id\":\"\",\"title\":\"X\"\x7d" ⟨"", "X", none, 0⟩ rfl (Or.inl rfl)).1,
   (createCourse_missing_fields sampleDecode seedCourses
      "\x7b\"course_id\":\"X\",\"title\":\"\"\x7d" ⟨"X", "", none, 0⟩ rfl (Or.inr rfl)).1⟩

/-! ## The 400 answers of update against those of create (C7) -/

/-- C7, as stated, fails: on the seeded collection, for the body with an empty
identifier, Create answers 400 with error "Missing course ID or title" while
Update("1", body) answers 400 with error "Missing fields in course", which is
a different error body. -/
theorem updateCourse_error_body_differs :
    (createCourse sampleDecode seedCourses
        (some "\x7b\"course_id\":\"\",\"title\":\"X\"\x7d")).1
      = jsonResponse 400 (.strMap "error" "Missing course ID or title") ∧
    (updateCourse sampleDecode seedCourses "1"
        (some "\x7b\"course_id\":\"\",\"title\":\"X\"\x7d")).1
      = some (jsonResponse 400 (.strMap "error" "Missing fields in course")) ∧
    (updateCourse sampleDecode seedCourses "1"
        (some "\x7b\"course_id\":\"\",\"title\":\"X\"\x7d")).1
      ≠ some (jsonResponse 400 (.strMap "error" "Missing course ID or title")) := by
  refine ⟨rfl, rfl, ?_⟩
  intro h
  have h2 : (updateCourse sampleDecode seedCourses "1"
        (some "\x7b\"course_id\":\"\",\"title\":\"X\"\x7d")).1
      = some (jsonResponse 400 (.strMap "error" "Missing fields in course")) := rfl
  rw [h2] at h
  simp [jsonResponse] at h

/-- C7 (amended): for every collection containing an entry with identifier
`id` and every supplied body, Update(id, body) answers 400 exactly when Create
on that body answers 400.  For a body that does not parse both answer with
error "Invalid JSON"; for a body that parses to a course with an empty
identifier or title Create answers with error "Missing course ID or title"
and Update with error "Missing fields in course". -/
theorem updateCourse_bad_request (decode : String → Option course)
    (courses : List course) (id b : String) (hex : ∃ x ∈ courses, x.CourseID = id) :
    ((createCourse decode courses (some b)).1.status = 400 ↔
      ∃ r, (updateCourse decode courses id (some b)).1 = some r ∧ r.status = 400) ∧
    (decode b = none →
      (createCourse decode courses (some b)).1
        = jsonResponse 400 (.strMap "error" "Invalid JSON") ∧
      (updateCourse decode courses id (some b)).1
        = some (jsonResponse 400 (.strMap "error" "Invalid JSON"))) ∧
    (∀ c, decode b = some c → (c.CourseID = "" ∨ c.Title = "") →
      (createCourse decode courses (some b)).1
        = jsonResponse 400 (.strMap "error" "Missing course ID or title") ∧
      (updateCourse decode courses id (some b)).1
        = some (jsonResponse 400 (.strMap "error" "Missing fields in course"))) := by
  obtain ⟨pre, item, post, hsplit, hitem, hpre⟩ := exists_firstMatch hex
  subst hsplit
  have hidx := rangeMatch_split id pre item post 0 hitem hpre
  refine ⟨?_, ?_, ?_⟩
  · cases hdec : decode b with
    | none =>
      simp [createCourse, updateCourse, hidx, hdec, StatusBadRequest, jsonResponse]
    | some c =>
      cases hc : isEmpty c with
      | true =>
        simp [createCourse, updateCourse, hidx, hdec, hc, StatusBadRequest, jsonResponse]
      | false =>
        simp [createCourse, updateCourse, hidx, hdec, hc, StatusCreated, StatusOK,
          jsonResponse]
  · intro hdec
    simp [createCourse, updateCourse, hidx, hdec, StatusBadRequest]
  · intro c hdec hempty
    have hc : isEmpty c = true := (isEmpty_eq_true_iff c).mpr hempty
    simp [createCourse, updateCourse, hidx, hdec, hc, StatusBadRequest]

/-- Witness of C7 (amended): a body that does not parse, sent to Create and to
Update("1") on the seeded collection. -/
theorem updateCourse_bad_request_witness :
    (createCourse sampleDecode seedCourses (some "not json")).1
      = jsonResponse 400 (.strMap "error" "Invalid JSON") ∧
    (updateCourse sampleDecode seedCourses "1" (some "not json")).1
      = some (jsonResponse 400 (.strMap "error" "Invalid JSON")) :=
  (updateCourse_bad_request sampleDecode seedCourses "1" "not json"
    ⟨⟨"1", "First Course", some ⟨1, "John Doe"⟩, 10.00⟩, by simp [seedCourses], rfl⟩).2.1
    rfl

/-! ## Validity of the stored courses (C8) -/

theorem seedCourses_valid : ∀ c ∈ seedCourses, c.CourseID ≠ "" ∧ c.Title ≠ "" := by
  intro c hc
  simp only [seedCourses, List.nil_append, List.singleton_append, List.mem_cons,
    List.mem_singleton, List.not_mem_nil, or_false] at hc
  rcases hc with rfl | rfl <;> exact ⟨by decide, by decide⟩

theorem valid_of_isEmpty_false (c : course) (h : isEmpty c = false) :
    c.CourseID ≠ "" ∧ c.Title ≠ "" := by
  simpa [isEmpty] using h

theorem createCourse_preserves_valid (decode : String → Option course)
    (courses : List course) (body : Option String)
    (hinv : ∀ c ∈ courses, c.CourseID ≠ "" ∧ c.Title ≠ "") :
    ∀ c ∈ (createCourse decode courses body).2, c.CourseID ≠ "" ∧ c.Title ≠ "" := by
  cases body with
  | none => simpa [createCourse] using hinv
  | some b =>
    cases hdec : decode b with
    | none => simpa [createCourse, hdec] using hinv
    | some p =>
      cases hp : isEmpty p with
      | true => simpa [createCourse, hdec, hp] using hinv
      | false =>
        intro c hc
        simp only [createCourse, hdec, hp, Bool.false_eq_true, if_false, List.mem_append,
          List.mem_singleton] at hc
        rcases hc with hold | rfl
        · exact hinv c hold
        · exact valid_of_isEmpty_false c hp

theorem updateCourse_preserves_valid (decode : String → Option course)
    (courses : List course) (id : String) (body : Option String)
    (hinv : ∀ c ∈ courses, c.CourseID ≠ "" ∧ c.Title ≠ "") :
    ∀ c ∈ (updateCourse decode courses id body).2, c.CourseID ≠ "" ∧ c.Title ≠ "" := by
  cases hidx : rangeMatch id courses 0 with
  | none => simpa [updateCourse, hidx] using hinv
  | some i =>
    cases body with
    | none => simpa [updateCourse, hidx] using hinv
    | some b =>
      cases hdec : decode b with
      | none => simpa [updateCourse, hidx, hdec] using hinv
      | some p =>
        cases hp : isEmpty p with
        | true => simpa [updateCourse, hidx, hdec, hp] using hinv
        | false =>
          intro c hc
          simp only [updateCourse, hidx, hdec, hp, Bool.false_eq_true, if_false] at hc
          rcases List.mem_or_eq_of_mem_set hc with hold | rfl
          · exact hinv c hold
          · exact valid_of_isEmpty_false c hp

theorem deleteCourse_preserves_valid (courses : List course) (id : String)
    (hinv : ∀ c ∈ courses, c.CourseID ≠ "" ∧ c.Title ≠ "") :
    ∀ c ∈ (deleteCourse courses id).2, c.CourseID ≠ "" ∧ c.Title ≠ "" := by
  cases hidx : rangeMatch id courses 0 with
  | none => simpa [deleteCourse, hidx] using hinv
  | some i =>
    intro c hc
    simp only [deleteCourse, hidx, List.mem_append] at hc
    rcases hc with htake | hdrop
    · exact hinv c (List.mem_of_mem_take htake)
    · exact hinv c (List.mem_of_mem_drop hdrop)

theorem serve_preserves_valid (decode : String → Option course) (courses : List course)
    (req : Request) (hinv : ∀ c ∈ courses, c.CourseID ≠ "" ∧ c.Title ≠ "") :
    ∀ c ∈ (serve decode courses req).2, c.CourseID ≠ "" ∧ c.Title ≠ "" := by
  cases req with
  | home => simpa [serve, serveHome] using hinv
  | create body => exact createCourse_preserves_valid decode courses body hinv
  | getall => simpa [serve, getAllCourses] using hinv
  | getone id =>
    have h : (getOneCourse courses id).2 = courses := by
      unfold getOneCourse
      cases getOneCourse.scan id courses <;> rfl
    simpa [serve, h] using hinv
  | update id body => exact updateCourse_preserves_valid decode courses id body hinv
  | delete id => exact deleteCourse_preserves_valid courses id hinv

theorem serveAll_preserves_valid (decode : String → Option course) (reqs : List Request) :
    ∀ courses : List course, (∀ c ∈ courses, c.CourseID ≠ "" ∧ c.Title ≠ "") →
      ∀ c ∈ serveAll decode courses reqs, c.CourseID ≠ "" ∧ c.Title ≠ "" := by
  induction reqs with
  | nil => intro courses hinv; simpa [serveAll] using hinv
  | cons req rest ih =>
    intro courses hinv
    exact ih _ (serve_preserves_valid decode courses req hinv)

/-- C8: in every state reached from the seeded collection by a finite sequence
of requests to the registered routes (Create, Update, Delete, ListAll, GetByID
and the home route, with arbitrary identifiers and bodies, whatever the JSON
decoder makes of the bodies), every stored course has a non-empty identifier
and a non-empty title. -/
theorem reachable_courses_valid (decode : String → Option course) (reqs : List Request)
    (c : course) (hc : c ∈ serveAll decode seedCourses reqs) :
    c.CourseID ≠ "" ∧ c.Title ≠ "" :=
  serveAll_preserves_valid decode reqs seedCourses seedCourses_valid c hc

/-- Witness of C8: after a rejected create, an update of "1" and the deletion
of "2", the stored course is the updated one, and it is valid. -/
theorem reachable_courses_valid_witness :
    serveAll sampleDecode seedCourses
        [.create (some "\x7b\"course_id\":\"\",\"title\":\"X\"\x7d"),
         .update "1" (some "\x7b\"course_id\":\"1\",\"title\":\"Updated\",\"price\":99.0\x7d"),
         .delete "2"]
      = [⟨"1", "Updated", none, 99.0⟩] ∧
    ((⟨"1", "Updated", none, 99.0⟩ : course).CourseID ≠ "" ∧
      (⟨"1", "Updated", none, 99.0⟩ : course).Title ≠ "") :=
  ⟨rfl, reachable_courses_valid sampleDecode
    [.create (some "\x7b\"course_id\":\"\",\"title\":\"X\"\x7d"),
     .update "1" (some "\x7b\"course_id\":\"1\",\"title\":\"Updated\",\"price\":99.0\x7d"),
     .delete "2"]
    ⟨"1", "Updated", none, 99.0⟩ (List.mem_singleton.mpr rfl)⟩

/-! ## ListAll (C9) -/

/-- C9: ListAll on the seeded collection, before any other request, answers
200 with exactly the two seeded courses in seed order, and on every collection
ListAll answers 200 with the whole collection in its current order and leaves
it as it is. -/
theorem getAllCourses_lists_collection :
    (getAllCourses seedCourses).1
      = jsonResponse 200 (.courseList
          [⟨"1", "First Course", some ⟨1, "John Doe"⟩, 10.00⟩,
           ⟨"2", "Second Course", some ⟨2, "Jane Smith"⟩, 20.00⟩]) ∧
    seedCourses.length = 2 ∧
    ∀ courses : List course,
      getAllCourses courses = (jsonResponse 200 (.courseList courses), courses) :=
  ⟨rfl, rfl, fun _ => rfl⟩

/-! ## Update followed by GetByID (C10) -/

/-- C10: when some entry of the collection has identifier `id` and the body
parses to a course `p` with non-empty identifier and title whose identifier is
`id`, Update(id, p) answers 200 with `p` and the GetByID(id) that follows
answers 200 with `p`. -/
theorem update_then_get (decode : String → Option course) (courses : List course)
    (id b : String) (p : course) (hex : ∃ x ∈ courses, x.CourseID = id)
    (hdec : decode b = some p) (hid : p.CourseID ≠ "") (ht : p.Title ≠ "")
    (hsame : p.CourseID = id) :
    (updateCourse decode courses id (some b)).1 = some (jsonResponse 200 (.courseObj p)) ∧
    (getOneCourse (updateCourse decode courses id (some b)).2 id).1
      = jsonResponse 200 (.courseObj p) := by
  obtain ⟨pre, item, post, hsplit, hitem, hpre⟩ := exists_firstMatch hex
  subst hsplit
  rw [updateCourse_split decode id pre item post b p hitem hpre hdec hid ht]
  refine ⟨rfl, ?_⟩
  simp only [getOneCourse_split id pre p post hsame hpre]

/-- Witness of C10: Update("1", Updated) on the seeded collection, then
GetByID("1"). -/
theorem update_then_get_witness :
    (updateCourse sampleDecode seedCourses "1"
        (some "\x7b\"course_id\":\"1\",\"title\":\"Updated\",\"price\":99.0\x7d")).1
      = some (jsonResponse 200 (.courseObj ⟨"1", "Updated", none, 99.0⟩)) ∧
    (getOneCourse (updateCourse sampleDecode seedCourses "1"
        (some "\x7b\"course_id\":\"1\",\"title\":\"Updated\",\"price\":99.0\x7d")).2 "1").1
      = jsonResponse 200 (.courseObj ⟨"1", "Updated", none, 99.0⟩) :=
  update_then_get sampleDecode seedCourses "1"
    "\x7b\"course_id\":\"1\",\"title\":\"Updated\",\"price\":99.0\x7d"
    ⟨"1", "Updated", none, 99.0⟩
    ⟨⟨"1", "First Course", some ⟨1, "John Doe"⟩, 10.00⟩, by simp [seedCourses], rfl⟩
    rfl (by decide) (by decide) rfl

/-! ## Not found on update and delete (C11) -/

theorem updateCourse_of_no_match (decode : String → Option course) (courses : List course)
    (id : String) (body : Option String) (hno : ∀ x ∈ courses, x.CourseID ≠ id) :
    updateCourse decode courses id body
      = (some (jsonResponse 404 (.strMap "error" "Course not found")), courses) := by
  simp [updateCourse, (rangeMatch_eq_none_iff id courses 0).mpr hno, StatusNotFound]

theorem deleteCourse_of_no_match (courses : List course) (id : String)
    (hno : ∀ x ∈ courses, x.CourseID ≠ id) :
    deleteCourse courses id
      = (jsonResponse 404 (.strMap "error" "Course not found"), courses) := by
  simp [deleteCourse, (rangeMatch_eq_none_iff id courses 0).mpr hno, StatusNotFound]

theorem updateCourse_status_of_match (decode : String → Option course)
    (courses : List course) (id : String) (body : Option String) (i : Nat)
    (hidx : rangeMatch id courses 0 = some i) (r : Response)
    (hr : (updateCourse decode courses id body).1 = some r) :
    r.status = 400 ∨ r.status = 200 := by
  cases body with
  | none => simp [updateCourse, hidx] at hr
  | some b =>
    cases hdec : decode b with
    | none =>
      simp only [updateCourse, hidx, hdec, Option.some.injEq] at hr
      subst hr
      exact Or.inl rfl
    | some c =>
      cases hc : isEmpty c with
      | true =>
        simp only [updateCourse, hidx, hdec, hc, if_true, Option.some.injEq] at hr
        subst hr
        exact Or.inl rfl
      | false =>
        simp only [updateCourse, hidx, hdec, hc, Bool.false_eq_true, if_false,
          Option.some.injEq] at hr
        subst hr
        exact Or.inr rfl

/-- C11: Update(id, body) answers 404 with error "Course not found" if and
only if no entry of the collection has identifier `id`, for every body (nil,
undecodable, decodable to an invalid or to a valid course): the lookup comes
before the body is read.  Delete(id) answers 404 with error "Course not found"
if and only if no entry of the collection has identifier `id`. -/
theorem not_found_iff_no_match (decode : String → Option course) (courses : List course)
    (id : String) (body : Option String) :
    ((updateCourse decode courses id body).1
        = some (jsonResponse 404 (.strMap "error" "Course not found"))
      ↔ ∀ x ∈ courses, x.CourseID ≠ id) ∧
    ((∃ r, (updateCourse decode courses id body).1 = some r ∧ r.status = 404)
      ↔ ∀ x ∈ courses, x.CourseID ≠ id) ∧
    ((deleteCourse courses id).1 = jsonResponse 404 (.strMap "error" "Course not found")
      ↔ ∀ x ∈ courses, x.CourseID ≠ id) ∧
    ((deleteCourse courses id).1.status = 404 ↔ ∀ x ∈ courses, x.CourseID ≠ id) := by
  have hupd : ∀ r, (updateCourse decode courses id body).1 = some r → r.status = 404 →
      ∀ x ∈ courses, x.CourseID ≠ id := by
    intro r hr hst
    cases hidx : rangeMatch id courses 0 with
    | none => exact (rangeMatch_eq_none_iff id courses 0).mp hidx
    | some i =>
      rcases updateCourse_status_of_match decode courses id body i hidx r hr with h | h
      · rw [h] at hst; exact absurd hst (by decide)
      · rw [h] at hst; exact absurd hst (by decide)
  have hdel : (deleteCourse courses id).1.status = 404 → ∀ x ∈ courses, x.CourseID ≠ id := by
    intro hst
    cases hidx : rangeMatch id courses 0 with
    | none => exact (rangeMatch_eq_none_iff id courses 0).mp hidx
    | some i =>
      simp [deleteCourse, hidx, jsonResponse, StatusOK] at hst
  refine ⟨⟨fun h => hupd _ h rfl, fun hno => ?_⟩, ⟨fun ⟨r, hr, hst⟩ => hupd r hr hst,
    fun hno => ⟨jsonResponse 404 (.strMap "error" "Course not found"), ?_, rfl⟩⟩,
    ⟨fun h => hdel (by rw [h]; rfl), fun hno => ?_⟩, ⟨hdel, fun hno => ?_⟩⟩
  · rw [updateCourse_of_no_match decode courses id body hno]
  · rw [updateCourse_of_no_match decode courses id body hno]
  · rw [deleteCourse_of_no_match courses id hno]
  · rw [deleteCourse_of_no_match courses id hno]; rfl

/-- Witness of C11: Update("9") with a nil body on the seeded collection, where
no course has identifier "9". -/
theorem not_found_iff_no_match_witness :
    (∀ x ∈ seedCourses, x.CourseID ≠ "9") ∧
    (updateCourse sampleDecode seedCourses "9" none).1
      = some (jsonResponse 404 (.strMap "error" "Course not found")) :=
  ⟨by decide, (not_found_iff_no_match sampleDecode seedCourses "9" none).1.mpr (by decide)⟩

/-! ## The answers of create (C12) -/

/-- C12: Create answers 201 if and only if a body is supplied (`r.Body` is not
nil), it decodes to a course and that course has a non-empty identifier and a
non-empty title.  In every other case it answers 400, with the error of the
first check that fails: "Request body is empty" for a nil body, "Invalid JSON"
for a body that does not decode, "Missing course ID or title" for a decoded
course with an empty identifier or title. -/
theorem createCourse_answers (decode : String → Option course) (courses : List course)
    (body : Option String) :
    ((createCourse decode courses body).1.status = 201 ↔
      ∃ b c, body = some b ∧ decode b = some c ∧ c.CourseID ≠ "" ∧ c.Title ≠ "") ∧
    ((createCourse decode courses body).1.status = 201 ∨
      (createCourse decode courses body).1.status = 400) ∧
    (body = none →
      (createCourse decode courses body).1
        = jsonResponse 400 (.strMap "error" "Request body is empty")) ∧
    (∀ b, body = some b → decode b = none →
      (createCourse decode courses body).1
        = jsonResponse 400 (.strMap "error" "Invalid JSON")) ∧
    (∀ b c, body = some b → decode b = some c → (c.CourseID = "" ∨ c.Title = "") →
      (createCourse decode courses body).1
        = jsonResponse 400 (.strMap "error" "Missing course ID or title")) := by
  cases body with
  | none =>
    simp [createCourse, jsonResponse, StatusBadRequest]
  | some b =>
    cases hdec : decode b with
    | none =>
      refine ⟨?_, ?_, by simp, ?_, ?_⟩
      · simp only [createCourse, hdec, jsonResponse, StatusBadRequest]
        constructor
        · intro h; exact absurd h (by decide)
        · rintro ⟨b', c', hb, hd, _, _⟩
          cases hb
          rw [hdec] at hd
          cases hd
      · simp [createCourse, hdec, jsonResponse, StatusBadRequest]
      · intro b' _ _
        simp [createCourse, hdec, jsonResponse, StatusBadRequest]
      · intro b' c' hb hd
        cases hb
        rw [hdec] at hd
        cases hd
    | some c =>
      cases hc : isEmpty c with
      | true =>
        have hor := (isEmpty_eq_true_iff c).mp hc
        refine ⟨?_, ?_, by simp, by simp [hdec], ?_⟩
        · simp only [createCourse, hdec, hc, if_true, jsonResponse, StatusBadRequest]
          constructor
          · intro h; exact absurd h (by decide)
          · rintro ⟨b', c', hb, hd, hid, ht⟩
            cases hb
            rw [hdec] at hd
            cases hd
            rcases hor with h | h
            · exact absurd h hid
            · exact absurd h ht
        · simp [createCourse, hdec, hc, jsonResponse, StatusBadRequest]
        · intro b' c' hb hd _
          simp [createCourse, hdec, hc, jsonResponse, StatusBadRequest]
      | false =>
        have hv := valid_of_isEmpty_false c hc
        refine ⟨?_, ?_, by simp, by simp [hdec], ?_⟩
        · simp only [createCourse, hdec, hc, Bool.false_eq_true, if_false, jsonResponse,
            StatusCreated, true_iff]
          exact ⟨b, c, rfl, hdec, hv.1, hv.2⟩
        · simp [createCourse, hdec, hc, jsonResponse, StatusCreated]
        · intro b' c' hb hd hempty
          cases hb
          rw [hdec] at hd
          cases hd
          rcases hempty with h | h
          · exact absurd h hv.1
          · exact absurd h hv.2

/-- Witness of C12: a body that does not decode, sent to the seeded
collection, is answered with "Invalid JSON". -/
theorem createCourse_answers_witness :
    sampleDecode "not json" = none ∧
    (createCourse sampleDecode seedCourses (some "not json")).1
      = jsonResponse 400 (.strMap "error" "Invalid JSON") :=
  ⟨rfl, (createCourse_answers sampleDecode seedCourses (some "not json")).2.2.2.1
    "not json" rfl rfl⟩

/-! ## Requests that fail leave the collection alone (C13) -/

theorem getOneCourse_keeps (courses : List course) (id : String) :
    (getOneCourse courses id).2 = courses := by
  unfold getOneCourse
  cases getOneCourse.scan id courses <;> rfl

/-- C13: a Create, an Update or a Delete that is answered with 400 or 404
leaves the collection exactly as it was, and ListAll and GetByID leave it as it
was whatever they answer. -/
theorem error_leaves_courses (decode : String → Option course) (courses : List course)
    (id : String) (body : Option String) :
    (((createCourse decode courses body).1.status = 400 ∨
        (createCourse decode courses body).1.status = 404) →
      (createCourse decode courses body).2 = courses) ∧
    (∀ r, (updateCourse decode courses id body).1 = some r →
      (r.status = 400 ∨ r.status = 404) →
      (updateCourse decode courses id body).2 = courses) ∧
    (((deleteCourse courses id).1.status = 400 ∨ (deleteCourse courses id).1.status = 404) →
      (deleteCourse courses id).2 = courses) ∧
    (getAllCourses courses).2 = courses ∧
    (getOneCourse courses id).2 = courses := by
  refine ⟨?_, ?_, ?_, rfl, getOneCourse_keeps courses id⟩
  · cases body with
    | none => intro _; rfl
    | some b =>
      cases hdec : decode b with
      | none => intro _; simp [createCourse, hdec]
      | some c =>
        cases hc : isEmpty c with
        | true => intro _; simp [createCourse, hdec, hc]
        | false =>
          simp [createCourse, hdec, hc, jsonResponse, StatusCreated]
  · intro r hr hst
    cases hidx : rangeMatch id courses 0 with
    | none => simp [updateCourse, hidx]
    | some i =>
      cases body with
      | none => simp [updateCourse, hidx]
      | some b =>
        cases hdec : decode b with
        | none => simp [updateCourse, hidx, hdec]
        | some c =>
          cases hc : isEmpty c with
          | true => simp [updateCourse, hidx, hdec, hc]
          | false =>
            simp only [updateCourse, hidx, hdec, hc, Bool.false_eq_true, if_false,
              Option.some.injEq] at hr
            subst hr
            simp [jsonResponse, StatusOK] at hst
  · cases hidx : rangeMatch id courses 0 with
    | none => intro _; simp [deleteCourse, hidx]
    | some i => simp [deleteCourse, hidx, jsonResponse, StatusOK]

/-- Witness of C13: an update of "1" with an invalid course on the seeded
collection is answered with 400 and the collection is still the seeded one. -/
theorem error_leaves_courses_witness :
    (updateCourse sampleDecode seedCourses "1"
        (some "\x7b\"course_id\":\"X\",\"title\":\"\"\x7d")).1
      = some (jsonResponse 400 (.strMap "error" "Missing fields in course")) ∧
    (updateCourse sampleDecode seedCourses "1"
        (some "\x7b\"course_id\":\"X\",\"title\":\"\"\x7d")).2 = seedCourses :=
  ⟨rfl, (error_leaves_courses sampleDecode seedCourses "1"
    (some "\x7b\"course_id\":\"X\",\"title\":\"\"\x7d")).2.1
    (jsonResponse 400 (.strMap "error" "Missing fields in course")) rfl (Or.inl rfl)⟩

/-! ## Occurrences of an identifier -/

theorem scan_eq_head_filter (id : String) (courses : List course) :
    getOneCourse.scan id courses
      = (courses.filter (fun x => decide (x.CourseID = id))).head? := by
  induction courses with
  | nil => rfl
  | cons a l ih =>
    by_cases ha : a.CourseID = id
    · simp [getOneCourse.scan, ha]
    · simp [getOneCourse.scan, ha, ih]

theorem filter_split (id : String) (pre : List course) (item : course) (post : List course)
    (hitem : item.CourseID = id) (hpre : ∀ x ∈ pre, x.CourseID ≠ id) :
    (pre ++ item :: post).filter (fun x => decide (x.CourseID = id))
      = item :: post.filter (fun x => decide (x.CourseID = id)) := by
  have h : pre.filter (fun x => decide (x.CourseID = id)) = [] := by
    rw [List.filter_eq_nil_iff]
    intro a ha
    simpa using hpre a ha
  simp [List.filter_append, h, hitem]

theorem scan_skip (id : String) (pre rest : List course)
    (hpre : ∀ x ∈ pre, x.CourseID ≠ id) :
    getOneCourse.scan id (pre ++ rest) = getOneCourse.scan id rest := by
  induction pre with
  | nil => rfl
  | cons a l ih =>
    have ha : a.CourseID ≠ id := hpre a (List.mem_cons_self a l)
    have hl : ∀ x ∈ l, x.CourseID ≠ id := fun x hx => hpre x (List.mem_cons_of_mem a hx)
    simp [getOneCourse.scan, ha, ih hl]

theorem exists_of_filter_length_pos (id : String) (courses : List course)
    (h : 0 < (courses.filter (fun x => decide (x.CourseID = id))).length) :
    ∃ x ∈ courses, x.CourseID = id := by
  obtain ⟨x, hx⟩ := List.exists_mem_of_length_pos h
  rw [List.mem_filter] at hx
  exact ⟨x, hx.1, by simpa using hx.2⟩

/-! ## Delete followed by GetByID (C14) -/

/-- C14: when some entry of the collection has identifier `id`, Delete(id)
answers 200 and the GetByID(id) that follows answers 404 with error "Course
not found" if and only if exactly one entry of the original collection had that
identifier; when two or more had it, GetByID(id) answers 200 with the second
of them in the original order. -/
theorem delete_then_get (courses : List course) (id : String)
    (hex : ∃ x ∈ courses, x.CourseID = id) :
    (deleteCourse courses id).1
      = jsonResponse 200 (.strMap "message" "Course deleted successfully") ∧
    ((getOneCourse (deleteCourse courses id).2 id).1
        = jsonResponse 404 (.strMap "error" "Course not found")
      ↔ (courses.filter (fun x => decide (x.CourseID = id))).length = 1) ∧
    (2 ≤ (courses.filter (fun x => decide (x.CourseID = id))).length →
      ∃ second, (courses.filter (fun x => decide (x.CourseID = id)))[1]? = some second ∧
        (getOneCourse (deleteCourse courses id).2 id).1
          = jsonResponse 200 (.courseObj second)) := by
  obtain ⟨pre, item, post, hsplit, hitem, hpre⟩ := exists_firstMatch hex
  subst hsplit
  rw [deleteCourse_split id pre item post hitem hpre, filter_split id pre item post hitem hpre]
  have hscan : getOneCourse.scan id (pre ++ post)
      = (post.filter (fun x => decide (x.CourseID = id))).head? := by
    rw [scan_skip id pre post hpre, scan_eq_head_filter]
  refine ⟨rfl, ?_, ?_⟩
  · cases hf : post.filter (fun x => decide (x.CourseID = id)) with
    | nil =>
      rw [hf] at hscan
      simp [getOneCourse, hscan, StatusNotFound]
    | cons y ys =>
      rw [hf] at hscan
      simp [getOneCourse, hscan, StatusOK, jsonResponse]
  · intro hlen
    cases hf : post.filter (fun x => decide (x.CourseID = id)) with
    | nil => rw [hf] at hlen; simp at hlen
    | cons y ys =>
      rw [hf] at hscan
      refine ⟨y, by simp, ?_⟩
      simp [getOneCourse, hscan, StatusOK]

/-- Witness of C14: with two courses of identifier "1" (the seeded one and a
created one), Delete("1") followed by GetByID("1") returns the created one. -/
theorem delete_then_get_witness :
    (getOneCourse (deleteCourse (seedCourses ++ [⟨"1", "Shadow", none, 5.0⟩]) "1").2 "1").1
      = jsonResponse 200 (.courseObj ⟨"1", "Shadow", none, 5.0⟩) := by
  obtain ⟨second, h1, h2⟩ := (delete_then_get (seedCourses ++ [⟨"1", "Shadow", none, 5.0⟩]) "1"
    ⟨⟨"1", "First Course", some ⟨1, "John Doe"⟩, 10.00⟩, by simp [seedCourses], rfl⟩).2.2
    (by decide)
  have h3 : second = ⟨"1", "Shadow", none, 5.0⟩ := (Option.some.inj h1).symm
  rw [h3] at h2
  exact h2

/-! ## Update with a body whose identifier differs from the path (C15) -/

/-- C15: when exactly one entry of the collection has identifier `id` and the
body parses to a course `p` with non-empty identifier and title and
`p.id ≠ id`, Update(id, p) answers 200 with `p` and stores `p`, under its own
identifier, at the index of the matched entry.  After it GetByID(id) answers
404, and GetByID(p.id) answers 200 with `p` or with an entry placed before the
matched position that has identifier `p.id`; it is `p` when no such earlier
entry exists. -/
theorem update_other_identifier (decode : String → Option course) (courses : List course)
    (id b : String) (p : course)
    (hone : (courses.filter (fun x => decide (x.CourseID = id))).length = 1)
    (hdec : decode b = some p) (hid : p.CourseID ≠ "") (ht : p.Title ≠ "")
    (hne : p.CourseID ≠ id) :
    ∃ pre item post, FirstMatch id courses pre item post ∧
      (updateCourse decode courses id (some b)).1 = some (jsonResponse 200 (.courseObj p)) ∧
      (updateCourse decode courses id (some b)).2 = pre ++ p :: post ∧
      (updateCourse decode courses id (some b)).2[pre.length]? = some p ∧
      (getOneCourse (updateCourse decode courses id (some b)).2 id).1
        = jsonResponse 404 (.strMap "error" "Course not found") ∧
      ((getOneCourse (updateCourse decode courses id (some b)).2 p.CourseID).1
          = jsonResponse 200 (.courseObj p) ∨
        ∃ e ∈ pre, e.CourseID = p.CourseID ∧
          (getOneCourse (updateCourse decode courses id (some b)).2 p.CourseID).1
            = jsonResponse 200 (.courseObj e)) ∧
      ((∀ x ∈ pre, x.CourseID ≠ p.CourseID) →
        (getOneCourse (updateCourse decode courses id (some b)).2 p.CourseID).1
          = jsonResponse 200 (.courseObj p)) := by
  have hex : ∃ x ∈ courses, x.CourseID = id :=
    exists_of_filter_length_pos id courses (by omega)
  obtain ⟨pre, item, post, hsplit, hitem, hpre⟩ := exists_firstMatch hex
  refine ⟨pre, item, post, ⟨hsplit, hitem, hpre⟩, ?_⟩
  subst hsplit
  rw [filter_split id pre item post hitem hpre] at hone
  have hpost : ∀ x ∈ post, x.CourseID ≠ id := by
    have hnil : post.filter (fun x => decide (x.CourseID = id)) = [] := by
      apply List.eq_nil_of_length_eq_zero
      simpa using hone
    rw [List.filter_eq_nil_iff] at hnil
    intro x hx
    simpa using hnil x hx
  rw [updateCourse_split decode id pre item post b p hitem hpre hdec hid ht]
  have hfresh : (∀ x ∈ pre, x.CourseID ≠ p.CourseID) →
      (getOneCourse (pre ++ p :: post) p.CourseID).1 = jsonResponse 200 (.courseObj p) := by
    intro hno
    rw [getOneCourse_split p.CourseID pre p post rfl hno]
  refine ⟨rfl, rfl, ?_, ?_, ?_, hfresh⟩
  · rw [List.getElem?_append_right (Nat.le_refl _)]
    simp
  · have hnone : getOneCourse.scan id (pre ++ p :: post) = none := by
      rw [scan_eq_none_iff]
      intro x hx
      rcases List.mem_append.mp hx with h | h
      · exact hpre x h
      · rcases List.mem_cons.mp h with rfl | h
        · exact hne
        · exact hpost x h
    simp [getOneCourse, hnone, StatusNotFound]
  · by_cases hearly : ∃ x ∈ pre, x.CourseID = p.CourseID
    · obtain ⟨pre', e, post', hsplit', he, hpre'⟩ := exists_firstMatch hearly
      refine Or.inr ⟨e, by simp [hsplit'], he, ?_⟩
      have h := getOneCourse_split p.CourseID pre' e (post' ++ p :: post) he hpre'
      subst hsplit'
      simp only [List.append_assoc, List.cons_append, h]
    · refine Or.inl (hfresh ?_)
      intro x hx hxid
      exact hearly ⟨x, hx, hxid⟩

/-- Witness of C15: Update("1") on the seeded collection with the course "3":
afterwards GetByID("1") answers 404 and GetByID("3") returns the new course. -/
theorem update_other_identifier_witness :
    (getOneCourse (updateCourse sampleDecode seedCourses "1"
        (some "\x7b\"course_id\":\"3\",\"title\":\"Third Course\",\"price\":30.0\x7d")).2 "1").1
      = jsonResponse 404 (.strMap "error" "Course not found") := by
  obtain ⟨pre, item, post, _, _, _, _, h404, _⟩ := update_other_identifier sampleDecode
    seedCourses "1" "\x7b\"course_id\":\"3\",\"title\":\"Third Course\",\"price\":30.0\x7d"
    ⟨"3", "Third Course", none, 30.0⟩ (by decide) rfl (by decide) (by decide) (by decide)
  exact h404

end CourseAPI
